import Mathlib

set_option autoImplicit false

/-!
Shallow embedding of the django_base repository (src/src/core) and proofs
about the claims of its specification.

Conventions of the embedding:
* timestamps are integer seconds (`Int`); `timezone.now()` is an explicit
  `now` parameter;
* `DecimalField(max_digits=10, decimal_places=2)` values are integer cents
  (`Int`), exact for two decimal places;
* Python dynamic typing of the `price` attribute is kept where it matters:
  a `Product` instance may hold a proper number, a raw non-numeric value
  (which Django `clean_fields` fails to convert and leaves in place), or
  `None` (`PriceVal`);
* fallible operations return `Except`; the relational store is an explicit
  list of rows threaded through every operation;
* logging is modelled as a list of `LogEntry` values; the Django Q
  `async_task` enqueue is modelled as a recorded `EnqueueCall` plus an
  outcome chosen by an oracle.
-/

namespace DjangoBase

/-- Severity levels of the `logging` calls in the source. -/
inductive LogLevel where
  | debug
  | info
  | warning
  | error
deriving Repr, DecidableEq

/-- One log line emitted by a handler or task. -/
structure LogEntry where
  level : LogLevel
  msg : String
deriving Repr, DecidableEq

/-- Python exceptions that cross function boundaries in the modelled code. -/
inductive PyExc where
  | importError
  | dbError
  | doesNotExist
  | other (description : String)
deriving Repr, DecidableEq

/-! ## Product data model (src/src/core/models.py, class Product) -/

/-- A persisted `core_product` row: fields from `Product` plus the columns
contributed by `TimeStampedModelMixin`, `SoftDeleteModelMixin` and
`UserTrackingModelMixin` (src/src/core/mixins.py). -/
structure ProductRow where
  id : Nat
  name : String
  price : Int
  stock : Int
  categoryId : Option Nat
  created_at : Int
  updated_at : Int
  is_deleted : Bool
  deleted_at : Option Int
  created_by : Option Nat
  updated_by : Option Nat
deriving Repr, DecidableEq

/-- Value held by the `price` attribute of an in-memory `Product` instance.
`raw` is a non-numeric value that `DecimalField.to_python` cannot convert
(Django leaves the attribute untouched when field cleaning fails);
`null` is Python `None`. -/
inductive PriceVal where
  | num (cents : Int)
  | raw (s : String)
  | null
deriving Repr, DecidableEq

/-- An in-memory `Product` instance as passed to `Product.save`.
`pk = none` means the instance has not been inserted yet. -/
structure ProductInstance where
  pk : Option Nat
  name : String
  price : PriceVal
  stock : Int
  categoryId : Option Nat
  created_at : Int
  updated_at : Int
  is_deleted : Bool
  deleted_at : Option Int
  created_by : Option Nat
  updated_by : Option Nat
deriving Repr, DecidableEq

/-- Python `str.strip()`: drop leading and trailing whitespace. -/
def pyStrip (s : String) : String :=
  String.mk (((s.toList.dropWhile Char.isWhitespace).reverse.dropWhile Char.isWhitespace).reverse)

/-- Field-level validation failures raised while cleaning a `Product`. -/
inductive FieldError where
  | nameBlank
  | nameTooLong
  | priceRequired
  | priceInvalid
  | priceDigits
  | pricePositive
  | priceMax
  | nameWhitespace
  | nameTooShort
  | stockNegative
  | stockMax
deriving Repr, DecidableEq

/-- Error escaping `Product.full_clean`: either an accumulated
`ValidationError` or a Python `TypeError` (see `productClean`). -/
inductive SaveError where
  | validation (errors : List FieldError)
  | typeError
deriving Repr, DecidableEq

/-- Django `Model.clean_fields` on the `Product` fields: `name` is a
`CharField(max_length=200, blank=False)` so an empty string is rejected and
an over-long one too; `price` is a required `DecimalField(max_digits=10,
decimal_places=2)` so `None`, an unconvertible value, and a value with more
than ten digits are rejected. Failed fields keep their raw attribute value. -/
def cleanFields (p : ProductInstance) : List FieldError :=
  (if p.name = "" then [FieldError.nameBlank]
   else if p.name.length > 200 then [FieldError.nameTooLong] else []) ++
  (match p.price with
   | PriceVal.null => [FieldError.priceRequired]
   | PriceVal.raw _ => [FieldError.priceInvalid]
   | PriceVal.num c => if c.natAbs ≥ 10000000000 then [FieldError.priceDigits] else [])

/-- Checks of `Product.clean` after the two price checks: empty-after-trim
name, short name, negative stock, oversized stock — in source order.
A falsy (empty) `name` skips both name checks. -/
def productCleanRest (p : ProductInstance) : Except SaveError Unit :=
  if p.name ≠ "" ∧ pyStrip p.name = "" then Except.error (SaveError.validation [FieldError.nameWhitespace])
  else if p.name ≠ "" ∧ (pyStrip p.name).length < 3 then Except.error (SaveError.validation [FieldError.nameTooShort])
  else if p.stock < 0 then Except.error (SaveError.validation [FieldError.stockNegative])
  else if p.stock > 1000000 then Except.error (SaveError.validation [FieldError.stockMax])
  else Except.ok ()

/-- Custom validation `Product.clean` (models.py lines 163-228). The guard
`self.price is not None and self.price <= 0` compares the attribute with an
integer: when the attribute still holds a raw non-numeric value (because
`clean_fields` could not convert it), that comparison raises `TypeError`,
which is not a `ValidationError`. Numeric prices are checked against zero
and against the `9999999.99` ceiling (999999999 cents), then the name and
stock checks run. -/
def productClean (p : ProductInstance) : Except SaveError Unit :=
  match p.price with
  | PriceVal.raw _ => Except.error SaveError.typeError
  | PriceVal.num c =>
      if c ≤ 0 then Except.error (SaveError.validation [FieldError.pricePositive])
      else if c > 999999999 then Except.error (SaveError.validation [FieldError.priceMax])
      else productCleanRest p
  | PriceVal.null => productCleanRest p

/-- Django `Model.full_clean`: collect `clean_fields` errors, then run
`clean` even if field cleaning failed (only `ValidationError` is caught
there, so a `TypeError` from `clean` propagates), and finally raise the
accumulated `ValidationError` when non-empty. -/
def fullClean (p : ProductInstance) : Except SaveError Unit :=
  match productClean p with
  | Except.error SaveError.typeError => Except.error SaveError.typeError
  | Except.error (SaveError.validation es) => Except.error (SaveError.validation (cleanFields p ++ es))
  | Except.ok () =>
      if cleanFields p = [] then Except.ok ()
      else Except.error (SaveError.validation (cleanFields p))

/-! ## The write layer (Django `Model.save` plus `Product.save` override) -/

/-- Product store: the `core_product` table. -/
abbrev ProductStore := List ProductRow

/-- Primary-key lookup, `Product.objects.get(pk=pid)`:
`none` is `Product.DoesNotExist`. -/
def getById (store : ProductStore) (pid : Nat) : Option ProductRow :=
  match store with
  | [] => none
  | r :: rest => if r.id == pid then some r else getById rest pid

/-- Next auto-increment primary key. -/
def freshId (ids : List Nat) : Nat := ids.foldr max 0 + 1

/-- Extracts the cents of a numeric price. Unreachable for non-numeric
values on every write path: `Product.save` runs `full_clean` first, which
rejects `raw` and `null` prices before any write. -/
def centsOf : PriceVal → Int
  | PriceVal.num c => c
  | PriceVal.raw _ => 0
  | PriceVal.null => 0

/-- Row written by a full (no `update_fields`) UPDATE of an existing row:
every column is taken from the instance; `updated_at` (`auto_now=True`) is
set to now, `created_at` (`auto_now_add=True`) keeps the instance value. -/
def fullUpdateRow (pid : Nat) (p : ProductInstance) (now : Int) : ProductRow :=
  { id := pid
    name := p.name
    price := centsOf p.price
    stock := p.stock
    categoryId := p.categoryId
    created_at := p.created_at
    updated_at := now
    is_deleted := p.is_deleted
    deleted_at := p.deleted_at
    created_by := p.created_by
    updated_by := p.updated_by }

/-- Row written by an INSERT: `created_at` and `updated_at` are both set to
now by `auto_now_add` / `auto_now`. -/
def insertRow (pid : Nat) (p : ProductInstance) (now : Int) : ProductRow :=
  { fullUpdateRow pid p now with created_at := now }

/-- UPDATE restricted by `update_fields`: only the named columns are taken
from the instance, every other column keeps its stored value. In
particular `updated_at` (`auto_now`) is persisted only when listed. -/
def applyUpdateFields (fields : List String) (stored : ProductRow) (p : ProductInstance) (now : Int) : ProductRow :=
  { id := stored.id
    name := if fields.contains "name" then p.name else stored.name
    price := if fields.contains "price" then centsOf p.price else stored.price
    stock := if fields.contains "stock" then p.stock else stored.stock
    categoryId := if fields.contains "category" then p.categoryId else stored.categoryId
    created_at := stored.created_at
    updated_at := if fields.contains "updated_at" then now else stored.updated_at
    is_deleted := if fields.contains "is_deleted" then p.is_deleted else stored.is_deleted
    deleted_at := if fields.contains "deleted_at" then p.deleted_at else stored.deleted_at
    created_by := if fields.contains "created_by" then p.created_by else stored.created_by
    updated_by := if fields.contains "updated_by" then p.updated_by else stored.updated_by }

/-- Replaces the row with primary key `pid` using `g`, leaving others. -/
def updateRow (store : ProductStore) (pid : Nat) (g : ProductRow → ProductRow) : ProductStore :=
  store.map (fun r => if r.id == pid then g r else r)

/-- Result of a model-level save (no signal effects). -/
structure SaveResult where
  store : ProductStore
  error : Option SaveError
  savedPk : Option Nat
  created : Bool
deriving Repr, DecidableEq

/-- INSERT of a fresh instance: the store assigns the next primary key. -/
def productInsertNew (store : ProductStore) (p : ProductInstance) (now : Int) : SaveResult :=
  let pid := freshId (store.map (fun r => r.id))
  ⟨store ++ [insertRow pid p now], none, some pid, true⟩

/-- Write of an instance that carries a primary key: UPDATE the matching
row (the whole row, or only `update_fields` when given), or INSERT when no
row matches. -/
def productWriteAt (store : ProductStore) (pid : Nat) (p : ProductInstance) (now : Int)
    (updateFields : Option (List String)) : SaveResult :=
  match getById store pid with
  | none => ⟨store ++ [insertRow pid p now], none, some pid, true⟩
  | some _ =>
      match updateFields with
      | none => ⟨updateRow store pid (fun _ => fullUpdateRow pid p now), none, some pid, false⟩
      | some fs => ⟨updateRow store pid (fun r => applyUpdateFields fs r p now), none, some pid, false⟩

/-- The write part of `Model.save` (after `Product.save` has validated):
INSERT when the instance has no primary key yet, otherwise the keyed
write. -/
def productWrite (store : ProductStore) (p : ProductInstance) (now : Int)
    (updateFields : Option (List String)) : SaveResult :=
  match p.pk with
  | none => productInsertNew store p now
  | some pid => productWriteAt store pid p now updateFields

/-- Name stripping done by `Product.save` after validation: `self.name` is
trimmed only when truthy. -/
def stripName (p : ProductInstance) : ProductInstance :=
  if p.name = "" then p else { p with name := pyStrip p.name }

/-- The `Product.save` override (models.py lines 230-249): run `full_clean`
(any error propagates to the caller before anything reaches the store),
strip the name, then perform the write. -/
def productSave (store : ProductStore) (p : ProductInstance) (now : Int)
    (updateFields : Option (List String)) : SaveResult :=
  match fullClean p with
  | Except.error e => ⟨store, some e, none, false⟩
  | Except.ok () => productWrite store (stripName p) now updateFields

/-! ## SoftDeleteModelMixin (src/src/core/mixins.py lines 140-150) -/

/-- In-memory view of a stored product row, as loaded by the ORM. -/
def instanceOfRow (r : ProductRow) : ProductInstance :=
  { pk := some r.id
    name := r.name
    price := PriceVal.num r.price
    stock := r.stock
    categoryId := r.categoryId
    created_at := r.created_at
    updated_at := r.updated_at
    is_deleted := r.is_deleted
    deleted_at := r.deleted_at
    created_by := r.created_by
    updated_by := r.updated_by }

/-- `SoftDeleteModelMixin.soft_delete`: set `is_deleted = True`,
`deleted_at = timezone.now()`, then
`save(update_fields=["is_deleted", "deleted_at"])`. -/
def productSoftDelete (store : ProductStore) (p : ProductInstance) (now : Int) : SaveResult :=
  productSave store { p with is_deleted := true, deleted_at := some now } now
    (some ["is_deleted", "deleted_at"])

/-- `SoftDeleteModelMixin.restore`: set `is_deleted = False`,
`deleted_at = None`, then the same restricted save. -/
def productRestore (store : ProductStore) (p : ProductInstance) (now : Int) : SaveResult :=
  productSave store { p with is_deleted := false, deleted_at := none } now
    (some ["is_deleted", "deleted_at"])

/-- `ProductViewSet.perform_destroy` (viewsets.py lines 683-696), reached by
`DELETE /api/v1/products/{id}/`: fetch the object (404 → `none`) and call
`soft_delete()` instead of removing the row. -/
def performDestroy (store : ProductStore) (pid : Nat) (now : Int) : Option SaveResult :=
  (getById store pid).map (fun r => productSoftDelete store (instanceOfRow r) now)

/-! ## Category data model (src/src/core/models.py, class Category) -/

/-- A persisted `core_category` row: `name`, `slug`, `description`,
self-referencing `parent`, plus the mixin columns. -/
structure CategoryRow where
  id : Nat
  name : String
  slug : String
  description : String
  parentId : Option Nat
  created_at : Int
  updated_at : Int
  is_deleted : Bool
  deleted_at : Option Int
  created_by : Option Nat
  updated_by : Option Nat
deriving Repr, DecidableEq

/-- An in-memory `Category` instance as passed to `Category.save`. -/
structure CategoryInstance where
  pk : Option Nat
  name : String
  slug : String
  description : String
  parentId : Option Nat
  created_at : Int
  updated_at : Int
  is_deleted : Bool
  deleted_at : Option Int
  created_by : Option Nat
  updated_by : Option Nat
deriving Repr, DecidableEq

/-- Keeps word characters, spaces and hyphens; drops the rest
(the `[^\w\s-]` removal step of `django.utils.text.slugify`). -/
def slugChar (c : Char) : Bool :=
  c.isAlphanum || c = '_' || c = ' ' || c = '-'

/-- Collapses runs of spaces and hyphens to a single hyphen
(the `[-\s]+` → `-` step of `slugify`). -/
def collapseSep : List Char → List Char
  | [] => []
  | c :: cs =>
      if c = ' ' || c = '-' then
        '-' :: collapseSep (cs.dropWhile (fun d => d = ' ' || d = '-'))
      else c :: collapseSep cs
termination_by l => l.length
decreasing_by
  · exact Nat.lt_succ_of_le (List.IsSuffix.length_le (List.dropWhile_suffix _))
  · simp

/-- ASCII behaviour of `django.utils.text.slugify` (framework helper used by
`Category.save` / `Tag.save`): lowercase, strip characters outside
`[\w\s-]`, collapse whitespace and hyphens to single hyphens, trim leading
and trailing hyphens and underscores. -/
def slugify (s : String) : String :=
  let lowered := (s.toLower.toList).filter slugChar
  let collapsed := collapseSep lowered
  let trimmed := (collapsed.dropWhile (fun c => c = '-' || c = '_')).reverse
      |>.dropWhile (fun c => c = '-' || c = '_') |>.reverse
  String.mk trimmed

/-- A Category store: the `core_category` table. -/
abbrev CategoryStore := List CategoryRow

/-- Primary-key lookup on the category table. -/
def getCategoryById (store : CategoryStore) (pid : Nat) : Option CategoryRow :=
  match store with
  | [] => none
  | r :: rest => if r.id == pid then some r else getCategoryById rest pid

/-- UPDATE of a category row restricted by `update_fields`. -/
def applyCategoryUpdateFields (fields : List String) (stored : CategoryRow)
    (p : CategoryInstance) (now : Int) : CategoryRow :=
  { id := stored.id
    name := if fields.contains "name" then p.name else stored.name
    slug := if fields.contains "slug" then p.slug else stored.slug
    description := if fields.contains "description" then p.description else stored.description
    parentId := if fields.contains "parent" then p.parentId else stored.parentId
    created_at := stored.created_at
    updated_at := if fields.contains "updated_at" then now else stored.updated_at
    is_deleted := if fields.contains "is_deleted" then p.is_deleted else stored.is_deleted
    deleted_at := if fields.contains "deleted_at" then p.deleted_at else stored.deleted_at
    created_by := if fields.contains "created_by" then p.created_by else stored.created_by
    updated_by := if fields.contains "updated_by" then p.updated_by else stored.updated_by }

/-- Full-row UPDATE / INSERT image of a category instance. -/
def categoryFullRow (pid : Nat) (p : CategoryInstance) (now : Int) : CategoryRow :=
  { id := pid
    name := p.name
    slug := p.slug
    description := p.description
    parentId := p.parentId
    created_at := p.created_at
    updated_at := now
    is_deleted := p.is_deleted
    deleted_at := p.deleted_at
    created_by := p.created_by
    updated_by := p.updated_by }

/-- Result of a category save. -/
structure CategorySaveResult where
  store : CategoryStore
  savedPk : Option Nat
  created : Bool
deriving Repr, DecidableEq

/-- Write of a category instance that carries a primary key. -/
def categoryWriteAt (store : CategoryStore) (pid : Nat) (p : CategoryInstance) (now : Int)
    (updateFields : Option (List String)) : CategorySaveResult :=
  match getCategoryById store pid with
  | none => ⟨store ++ [{ categoryFullRow pid p now with created_at := now }], some pid, true⟩
  | some _ =>
      match updateFields with
      | none => ⟨store.map (fun r => if r.id == pid then categoryFullRow pid p now else r), some pid, false⟩
      | some fs => ⟨store.map (fun r => if r.id == pid then applyCategoryUpdateFields fs r p now else r), some pid, false⟩

/-- The `Category.save` override (models.py lines 740-747): generate the slug
from the name when empty, then the standard write (`Category` defines no
`clean` override and its save does not call `full_clean`). -/
def categorySave (store : CategoryStore) (p : CategoryInstance) (now : Int)
    (updateFields : Option (List String)) : CategorySaveResult :=
  let q := if p.slug = "" then { p with slug := slugify p.name } else p
  match p.pk with
  | none =>
      let pid := freshId (store.map (fun r => r.id))
      ⟨store ++ [{ categoryFullRow pid q now with created_at := now }], some pid, true⟩
  | some pid => categoryWriteAt store pid q now updateFields

/-- In-memory view of a stored category row. -/
def instanceOfCategoryRow (r : CategoryRow) : CategoryInstance :=
  { pk := some r.id
    name := r.name
    slug := r.slug
    description := r.description
    parentId := r.parentId
    created_at := r.created_at
    updated_at := r.updated_at
    is_deleted := r.is_deleted
    deleted_at := r.deleted_at
    created_by := r.created_by
    updated_by := r.updated_by }

/-- `soft_delete` on a `Category` (same mixin code as for `Product`). -/
def categorySoftDelete (store : CategoryStore) (p : CategoryInstance) (now : Int) : CategorySaveResult :=
  categorySave store { p with is_deleted := true, deleted_at := some now } now
    (some ["is_deleted", "deleted_at"])

/-- `restore` on a `Category`. -/
def categoryRestore (store : CategoryStore) (p : CategoryInstance) (now : Int) : CategorySaveResult :=
  categorySave store { p with is_deleted := false, deleted_at := none } now
    (some ["is_deleted", "deleted_at"])

/-! ## User and profile rows (django.contrib.auth User, core.UserProfile) -/

/-- The slice of a `auth_user` row the handlers touch. -/
structure UserRow where
  id : Nat
  username : String
deriving Repr, DecidableEq

/-- A `core_userprofile` row: one-to-one `user` reference plus the
verification flag (the optional biographical columns play no role in the
claims and carry their blank defaults here). -/
structure ProfileRow where
  id : Nat
  userId : Nat
  is_verified : Bool
deriving Repr, DecidableEq

/-- Profile store: the `core_userprofile` table. -/
abbrev ProfileStore := List ProfileRow

/-! ## Signal handlers (src/src/core/signals.py)

Each handler is translated twice: a `…Body` function containing the code
inside the outer `try:` (it can raise, which `Except.error` models, and an
`Option PyExc` oracle injects the unexpected infrastructure failures the
source guards against), and the installed handler, which is the body wrapped
in the outer `except Exception` clause that logs and swallows the error. -/

/-- A log entry recorded by an `except` clause. -/
def caughtLog (context : String) : LogEntry :=
  ⟨LogLevel.error, "caught exception in " ++ context⟩

/-- Body of `create_user_profile` (signals.py lines 68-95): on creation,
`UserProfile.objects.create(user=instance)`; the oracle decides whether that
insert raises. -/
def createUserProfileBody (profiles : ProfileStore) (u : UserRow) (created : Bool)
    (fail : Option PyExc) : Except PyExc (ProfileStore × List LogEntry) :=
  if created then
    match fail with
    | some e => Except.error e
    | none =>
        Except.ok (profiles ++ [⟨freshId (profiles.map (fun pr => pr.id)), u.id, false⟩],
          [⟨LogLevel.info, "UserProfile created for user " ++ u.username⟩])
  else Except.ok (profiles, [])

/-- Installed `create_user_profile` handler: the body under
`except Exception`, which logs and leaves the store as it was. Typed in
`Except` so that never raising is a statement, not a typing accident. -/
def createUserProfileHandler (profiles : ProfileStore) (u : UserRow) (created : Bool)
    (fail : Option PyExc) : Except PyExc (ProfileStore × List LogEntry) :=
  match createUserProfileBody profiles u created fail with
  | Except.ok res => Except.ok res
  | Except.error _ => Except.ok (profiles, [caughtLog "create_user_profile"])

/-- Body of `save_user_profile` (signals.py lines 98-128):
`hasattr(instance, "profile")` resolves the reverse one-to-one, so it holds
exactly when a profile row for the user exists; then the existing profile is
saved (an UPDATE of the same row), otherwise a fallback create runs. -/
def saveUserProfileBody (profiles : ProfileStore) (u : UserRow)
    (fail : Option PyExc) : Except PyExc (ProfileStore × List LogEntry) :=
  if profiles.any (fun pr => pr.userId == u.id) then
    match fail with
    | some e => Except.error e
    | none => Except.ok (profiles, [])
  else
    match fail with
    | some e => Except.error e
    | none =>
        Except.ok (profiles ++ [⟨freshId (profiles.map (fun pr => pr.id)), u.id, false⟩],
          [⟨LogLevel.warning, "UserProfile was missing for user " ++ u.username ++ ", created now"⟩])

/-- Installed `save_user_profile` handler. -/
def saveUserProfileHandler (profiles : ProfileStore) (u : UserRow)
    (fail : Option PyExc) : Except PyExc (ProfileStore × List LogEntry) :=
  match saveUserProfileBody profiles u fail with
  | Except.ok res => Except.ok res
  | Except.error _ => Except.ok (profiles, [caughtLog "save_user_profile"])

/-- Creation of a `User`: the INSERT commits, then Django fires `post_save`
into the two receivers in registration order — `create_user_profile`
first, `save_user_profile` second — each with its own failure oracle. -/
def createUser (users : List UserRow) (profiles : ProfileStore) (username : String)
    (fail1 fail2 : Option PyExc) : List UserRow × ProfileStore × List LogEntry :=
  let u : UserRow := ⟨freshId (users.map (fun r => r.id)), username⟩
  let users' := users ++ [u]
  match createUserProfileHandler profiles u true fail1 with
  | Except.error _ => (users', profiles, [])
  | Except.ok (profiles1, logs1) =>
      match saveUserProfileHandler profiles1 u fail2 with
      | Except.error _ => (users', profiles1, logs1)
      | Except.ok (profiles2, logs2) => (users', profiles2, logs1 ++ logs2)

/-- Body of `product_pre_save_handler` (signals.py lines 135-205): for an
update, reload the previous row; a missing row is caught by the inner
`except Product.DoesNotExist` as a warning; price and status changes are
logged; the oracle injects any other failure inside the outer `try:`. -/
def productPreSaveBody (store : ProductStore) (p : ProductInstance)
    (fail : Option PyExc) : Except PyExc (List LogEntry) :=
  match fail with
  | some e => Except.error e
  | none =>
      match p.pk with
      | none => Except.ok []
      | some pid =>
          match getById store pid with
          | none => Except.ok [⟨LogLevel.warning, "Product not found in pre_save signal"⟩]
          | some old =>
              Except.ok
                ((if old.price ≠ centsOf p.price then [⟨LogLevel.info, "price changed"⟩] else []) ++
                 (if old.is_deleted ≠ p.is_deleted then [⟨LogLevel.info, "status changed"⟩] else []))

/-- Installed `product_pre_save_handler`. -/
def productPreSaveHandler (store : ProductStore) (p : ProductInstance)
    (fail : Option PyExc) : Except PyExc (List LogEntry) :=
  match productPreSaveBody store p fail with
  | Except.ok logs => Except.ok logs
  | Except.error _ => Except.ok [caughtLog "product_pre_save_handler"]

/-- Outcome of one `async_task` call, chosen by the environment: the broker
returns a task id, Django Q is unavailable (`ImportError`), or some other
infrastructure error is raised. -/
inductive AsyncOutcome where
  | accepted (taskId : Nat)
  | importError
  | failed (e : PyExc)
deriving Repr, DecidableEq

/-- A recorded call to `django_q.tasks.async_task`. -/
structure EnqueueCall where
  task : String
  productId : Nat
  productName : String
deriving Repr, DecidableEq

/-- Body of `schedule_product_notification` (signals.py lines 212-311).
Only a creation schedules the task; the `async_task` call is recorded even
when it raises, and both `ImportError` and other enqueue errors are caught
by the inner `except` clauses. `outerFail` injects an unexpected failure
ahead of the scheduling block, covered only by the outer `try:`. -/
def scheduleProductNotificationBody (created : Bool) (pid : Nat) (pname : String)
    (outcome : AsyncOutcome) (outerFail : Option PyExc) :
    List EnqueueCall × Except PyExc (List LogEntry) :=
  match outerFail with
  | some e => ([], Except.error e)
  | none =>
      if created then
        let call : EnqueueCall := ⟨"core.tasks.notify_new_product", pid, pname⟩
        match outcome with
        | AsyncOutcome.accepted _ =>
            ([call], Except.ok [⟨LogLevel.info, "Scheduling notification task"⟩,
              ⟨LogLevel.info, "Notification task scheduled successfully"⟩])
        | AsyncOutcome.importError =>
            ([call], Except.ok [⟨LogLevel.info, "Scheduling notification task"⟩,
              ⟨LogLevel.warning, "Django Q not available"⟩])
        | AsyncOutcome.failed _ =>
            ([call], Except.ok [⟨LogLevel.info, "Scheduling notification task"⟩,
              ⟨LogLevel.error, "Failed to schedule notification task"⟩])
      else ([], Except.ok [⟨LogLevel.debug, "Product updated (no notification scheduled)"⟩])

/-- Installed `schedule_product_notification` handler (outer catch-all). -/
def scheduleProductNotification (created : Bool) (pid : Nat) (pname : String)
    (outcome : AsyncOutcome) (outerFail : Option PyExc) :
    List EnqueueCall × Except PyExc (List LogEntry) :=
  match scheduleProductNotificationBody created pid pname outcome outerFail with
  | (calls, Except.ok logs) => (calls, Except.ok logs)
  | (calls, Except.error _) => (calls, Except.ok [caughtLog "schedule_product_notification"])

/-- Body of `update_search_index` (signals.py lines 314-363): skip raw
saves, otherwise only the placeholder log line runs. -/
def updateSearchIndexBody (raw : Bool) (fail : Option PyExc) : Except PyExc (List LogEntry) :=
  match fail with
  | some e => Except.error e
  | none =>
      if raw then Except.ok [⟨LogLevel.debug, "Skipping search index update (raw save)"⟩]
      else Except.ok [⟨LogLevel.debug, "Search index update placeholder executed"⟩]

/-- Installed `update_search_index` handler. -/
def updateSearchIndexHandler (raw : Bool) (fail : Option PyExc) : Except PyExc (List LogEntry) :=
  match updateSearchIndexBody raw fail with
  | Except.ok logs => Except.ok logs
  | Except.error _ => Except.ok [caughtLog "update_search_index"]

/-- Body of `product_post_delete_handler` (signals.py lines 370-422). -/
def productPostDeleteBody (pid : Nat) (pname : String) (fail : Option PyExc) :
    Except PyExc (List LogEntry) :=
  match fail with
  | some e => Except.error e
  | none => Except.ok [⟨LogLevel.info, "Product " ++ toString pid ++ " (" ++ pname ++ ") was permanently deleted"⟩]

/-- Installed `product_post_delete_handler`. -/
def productPostDeleteHandler (pid : Nat) (pname : String) (fail : Option PyExc) :
    Except PyExc (List LogEntry) :=
  match productPostDeleteBody pid pname fail with
  | Except.ok logs => Except.ok logs
  | Except.error _ => Except.ok [caughtLog "product_post_delete_handler"]

/-! ## Full save and delete pipelines for Product -/

/-- Failure oracles for one trip through the product signal handlers. -/
structure HookOracles where
  preFail : Option PyExc
  outcome : AsyncOutcome
  notifOuterFail : Option PyExc
  searchFail : Option PyExc
deriving Repr

/-- Result of one `Product.save` with signal dispatch. -/
structure PipelineResult where
  store : ProductStore
  error : Option SaveError
  savedPk : Option Nat
  created : Bool
  enqueues : List EnqueueCall
  logs : List LogEntry
deriving Repr

/-- Dispatch of one receiver returning only logs: were the receiver to
raise, `Signal.send` would propagate the exception into `save`; the
handlers below never do (see the C4 theorem), so the dispatch result is
the log list. -/
def runLogsHandler (res : Except PyExc (List LogEntry)) : List LogEntry :=
  match res with
  | Except.ok logs => logs
  | Except.error _ => []

/-- Dispatch of the scheduling receiver: enqueue attempts survive even a
raising receiver. -/
def runScheduleHandler (res : List EnqueueCall × Except PyExc (List LogEntry)) :
    List EnqueueCall × List LogEntry :=
  match res with
  | (calls, Except.ok logs) => (calls, logs)
  | (calls, Except.error _) => (calls, [])

/-- A `Product.save` call as Django executes it: the `Product.save`
override validates (any validation error propagates before signals or
writes), then `save_base` fires `pre_save`, performs the write, and fires
`post_save` into `schedule_product_notification` and `update_search_index`
(registration order). The handlers only log and enqueue — they cannot
touch the product table — and each swallows its own failures. -/
def productSavePipeline (store : ProductStore) (p : ProductInstance) (now : Int)
    (updateFields : Option (List String)) (o : HookOracles) : PipelineResult :=
  match fullClean p with
  | Except.error e => ⟨store, some e, none, false, [], []⟩
  | Except.ok () =>
      let p := stripName p
      let preLogs := runLogsHandler (productPreSaveHandler store p o.preFail)
      let w := productWrite store p now updateFields
      let nr := runScheduleHandler
        (scheduleProductNotification w.created (w.savedPk.getD 0) p.name o.outcome o.notifOuterFail)
      let searchLogs := runLogsHandler (updateSearchIndexHandler false o.searchFail)
      ⟨w.store, none, w.savedPk, w.created, nr.1, preLogs ++ nr.2 ++ searchLogs⟩

/-- A hard delete of a product row (the rare non-soft path): the row is
removed, then `post_delete` fires into `product_post_delete_handler`. -/
def productHardDelete (store : ProductStore) (r : ProductRow) (fail : Option PyExc) :
    ProductStore × List LogEntry :=
  let store' := store.filter (fun s => s.id != r.id)
  match productPostDeleteHandler r.id r.name fail with
  | Except.ok logs => (store', logs)
  | Except.error _ => (store', [])

/-! ## Background task notify_new_product (src/src/core/tasks.py lines 47-177) -/

/-- The dictionary returned by `notify_new_product`, restricted to the keys
the claims mention. -/
structure TaskResult where
  status : String
  errorKey : Option String
  product_id : Nat
  product_name : Option String
deriving Repr, DecidableEq

/-- The `notify_new_product` task: the product lookup sits in an inner
`try/except ObjectDoesNotExist` that returns a structured error dictionary
instead of raising; `fail` injects an unexpected exception anywhere later
inside the outer `try:` (payload preparation, notification dispatch), which
the outer `except Exception` clause logs and re-raises for Django Q to
retry. On success the result carries the id argument and the product name
read back from the store. -/
def notify_new_product (store : ProductStore) (product_id : Nat) (product_name : String)
    (fail : Option PyExc) : Except PyExc TaskResult :=
  match getById store product_id with
  | none =>
      Except.ok { status := "error", errorKey := some "product_not_found",
                  product_id := product_id, product_name := none }
  | some product =>
      match fail with
      | some e => Except.error e
      | none =>
          Except.ok { status := "success", errorKey := none,
                      product_id := product_id, product_name := some product.name }

/-! ## CategorySerializer.validate_parent (src/src/core/serializers.py lines 586-614) -/

/-- Validation errors raised by `validate_parent`. -/
inductive ParentValError where
  | ownParent
  | circular
deriving Repr, DecidableEq

/-- `CategorySerializer.validate_parent`: runs only when both a parent value
and a bound instance are present (truthiness of `value and self.instance`);
rejects `value.id == self.instance.id` and
`value.parent and value.parent.id == self.instance.id`
(`value.parent.id` is the stored foreign key `value.parent_id`). -/
def validate_parent (instOpt : Option CategoryRow) (value : Option CategoryRow) :
    Except ParentValError (Option CategoryRow) :=
  match value, instOpt with
  | some v, some inst =>
      if v.id == inst.id then Except.error ParentValError.ownParent
      else
        match v.parentId with
        | some gp => if gp == inst.id then Except.error ParentValError.circular else Except.ok value
        | none => Except.ok value
  | _, _ => Except.ok value

/-- Parent pointer of the category with id `cid` in a store. -/
def parentOf (store : CategoryStore) (cid : Nat) : Option Nat :=
  match getCategoryById store cid with
  | some r => r.parentId
  | none => none

/-- Whether `anc` is reached from `cid` by following at most `fuel` parent
links (the ancestor chain walked by `Category.get_ancestors`). -/
def reachesAncestor (store : CategoryStore) : Nat → Nat → Nat → Bool
  | 0, _, _ => false
  | fuel + 1, cid, anc =>
      match parentOf store cid with
      | none => false
      | some pid => pid == anc || reachesAncestor store fuel pid anc

/-- The accepted parent assignment applied at the data layer: the updated
category keeps its id and takes the new parent. -/
def setParent (store : CategoryStore) (cid : Nat) (newParent : Option Nat) : CategoryStore :=
  store.map (fun r => if r.id == cid then { r with parentId := newParent } else r)

/-! ## CategorySerializer field construction and the tree endpoint
(src/src/core/serializers.py lines 493-614, src/src/core/viewsets.py lines 784-836) -/

/-- Names the `Category` model class actually exposes: its concrete columns,
the reverse relations (`children`, `products`), and the properties and
methods defined on the class in models.py. -/
def categoryModelAttributeNames : List String :=
  ["id", "name", "slug", "description", "parent",
   "is_deleted", "deleted_at", "created_at", "updated_at",
   "created_by", "updated_by",
   "children", "products",
   "product_count", "is_root", "get_ancestors", "get_descendants",
   "soft_delete", "restore", "save"]

/-- `CategorySerializer.Meta.fields` as written in the source, including
the stale `is_active` entry. -/
def categorySerializerMetaFields : List String :=
  ["id", "name", "slug", "description", "parent", "parent_name",
   "children_count", "products_count", "is_active", "created_at", "updated_at"]

/-- Serializer fields declared on the `CategorySerializer` class body
(`SerializerMethodField`s). -/
def categoryDeclaredFields : List String :=
  ["parent_name", "children_count", "products_count"]

/-- Configuration error DRF raises while building serializer fields. -/
inductive SerializerError where
  | unknownField (name : String)
deriving Repr, DecidableEq

/-- DRF `ModelSerializer` field construction: each `Meta.fields` name must
be a declared serializer field or something the model exposes; the first
name that is neither raises `ImproperlyConfigured` — which happens on
first access of `serializer.data`. -/
def buildCategorySerializerFields : Except SerializerError Unit :=
  match categorySerializerMetaFields.find?
      (fun n => !(categoryDeclaredFields.contains n || categoryModelAttributeNames.contains n)) with
  | some n => Except.error (SerializerError.unknownField n)
  | none => Except.ok ()

/-- One node of the nested tree payload (name and id stand for the
serialized category dictionary; children as recursively built). -/
structure TreeNode where
  id : Nat
  name : String
  children : List TreeNode
deriving Repr

/-- The recursion of `build_tree`: children are the non-deleted categories
whose parent is this node, with fuel bounding the descent. -/
def buildTree (store : CategoryStore) : Nat → CategoryRow → TreeNode
  | 0, c => ⟨c.id, c.name, []⟩
  | fuel + 1, c =>
      ⟨c.id, c.name,
        (store.filter (fun k => k.parentId == some c.id && k.is_deleted == false)).map
          (buildTree store fuel)⟩

/-- `CategoryViewSet.tree`: root categories are the non-deleted ones with
no parent; each root is serialized by `CategorySerializer(category).data`
before its children are attached, so the serializer field construction must
succeed before any payload can be produced — its failure escapes the
action as a server error. -/
def categoryTree (store : CategoryStore) : Except SerializerError (List TreeNode) :=
  match buildCategorySerializerFields with
  | Except.error e => Except.error e
  | Except.ok () =>
      Except.ok
        ((store.filter (fun r => r.parentId == none && r.is_deleted == false)).map
          (buildTree store store.length))

/-! ## ProductViewSet.recent (src/src/core/viewsets.py lines 374-445) -/

/-- `ProductViewSet.get_queryset`: base queryset of all products with the
optional `min_price` / `max_price` / `active_only` query-parameter filters
(ordering is not modelled; the claims are about membership). -/
def productGetQueryset (store : ProductStore) (minPrice maxPrice : Option Int)
    (activeOnly : Bool) : List ProductRow :=
  let qs := store
  let qs := match minPrice with
    | some m => qs.filter (fun r => m ≤ r.price)
    | none => qs
  let qs := match maxPrice with
    | some m => qs.filter (fun r => r.price ≤ m)
    | none => qs
  if activeOnly then qs.filter (fun r => r.is_deleted == false) else qs

/-- Seconds per day, the granularity of `timedelta(days=days)`. -/
def secondsPerDay : Int := 86400

/-- Response of the `recent` action: a 200 payload listing products, or the
400 error response. -/
inductive RecentResponse where
  | ok (products : List ProductRow)
  | badRequest
deriving Repr, DecidableEq

/-- `ProductViewSet.recent` on a request whose only query parameter is
`days` (absent means the default 7): values outside 1..365 get a 400,
otherwise the queryset is filtered by `created_at__gte=cutoff` and
`is_deleted=False` and returned (pagination is not modelled; the payload is
the full filtered list). -/
def recentAction (store : ProductStore) (now : Int) (daysParam : Option Int) : RecentResponse :=
  let days := daysParam.getD 7
  if days < 1 ∨ days > 365 then RecentResponse.badRequest
  else
    let cutoff := now - days * secondsPerDay
    RecentResponse.ok
      ((productGetQueryset store none none false).filter
        (fun r => cutoff ≤ r.created_at && r.is_deleted == false))

/-! ## Claim-side predicates (phrased from the specification wording) -/

/-- Price values the specification says must be rejected: non-positive, or
non-numeric (an unconvertible raw value or `None`). -/
def priceBad (p : ProductInstance) : Prop :=
  match p.price with
  | PriceVal.num c => c ≤ 0
  | PriceVal.raw _ => True
  | PriceVal.null => True

/-- Names the specification says must be rejected: empty or whitespace-only
(empty after trimming), or shorter than three characters after trimming. -/
def nameBad (p : ProductInstance) : Prop :=
  pyStrip p.name = "" ∨ (pyStrip p.name).length < 3

/-! ## Helper lemmas -/

theorem getById_some_id {store : ProductStore} {pid : Nat} {r : ProductRow}
    (h : getById store pid = some r) : r.id = pid := by
  induction store with
  | nil => simp [getById] at h
  | cons a tl ih =>
      by_cases ha : (a.id == pid) = true
      · simp [getById, ha] at h
        subst h
        simpa using ha
      · simp [getById, ha] at h
        exact ih h

theorem getCategoryById_some_id {store : CategoryStore} {pid : Nat} {r : CategoryRow}
    (h : getCategoryById store pid = some r) : r.id = pid := by
  induction store with
  | nil => simp [getCategoryById] at h
  | cons a tl ih =>
      by_cases ha : (a.id == pid) = true
      · simp [getCategoryById, ha] at h
        subst h
        simpa using ha
      · simp [getCategoryById, ha] at h
        exact ih h

theorem getById_map_ite {store : ProductStore} {pid : Nat} {r : ProductRow}
    (f : ProductRow → ProductRow) (hf : ∀ s, (f s).id = s.id)
    (h : getById store pid = some r) :
    getById (store.map (fun s => if s.id == pid then f s else s)) pid = some (f r) := by
  induction store with
  | nil => simp [getById] at h
  | cons a tl ih =>
      by_cases ha : (a.id == pid) = true
      · simp [getById, ha] at h
        subst h
        simp [getById, ha, hf]
      · simp [getById, ha] at h
        have hhead : (if (a.id == pid) = true then f a else a) = a := if_neg ha
        rw [List.map_cons, hhead]
        simp only [getById]
        rw [if_neg ha]
        exact ih h

theorem getCategoryById_map_ite {store : CategoryStore} {pid : Nat} {r : CategoryRow}
    (f : CategoryRow → CategoryRow) (hf : ∀ s, (f s).id = s.id)
    (h : getCategoryById store pid = some r) :
    getCategoryById (store.map (fun s => if s.id == pid then f s else s)) pid = some (f r) := by
  induction store with
  | nil => simp [getCategoryById] at h
  | cons a tl ih =>
      by_cases ha : (a.id == pid) = true
      · simp [getCategoryById, ha] at h
        subst h
        simp [getCategoryById, ha, hf]
      · simp [getCategoryById, ha] at h
        have hhead : (if (a.id == pid) = true then f a else a) = a := if_neg ha
        rw [List.map_cons, hhead]
        simp only [getCategoryById]
        rw [if_neg ha]
        exact ih h

theorem fullClean_set_flags (p : ProductInstance) (b : Bool) (d : Option Int) :
    fullClean { p with is_deleted := b, deleted_at := d } = fullClean p := rfl

theorem instanceOfRow_set_flags (r : ProductRow) (b : Bool) (d : Option Int) :
    instanceOfRow { r with is_deleted := b, deleted_at := d } =
      { instanceOfRow r with is_deleted := b, deleted_at := d } := rfl

theorem stripName_pk (p : ProductInstance) : (stripName p).pk = p.pk := by
  unfold stripName; split <;> rfl

theorem stripName_is_deleted (p : ProductInstance) : (stripName p).is_deleted = p.is_deleted := by
  unfold stripName; split <;> rfl

theorem stripName_deleted_at (p : ProductInstance) : (stripName p).deleted_at = p.deleted_at := by
  unfold stripName; split <;> rfl

theorem applyUpdateFields_soft (s : ProductRow) (p : ProductInstance) (now : Int) :
    applyUpdateFields ["is_deleted", "deleted_at"] s p now =
      { s with is_deleted := p.is_deleted, deleted_at := p.deleted_at } := rfl

theorem applyCategoryUpdateFields_soft (s : CategoryRow) (p : CategoryInstance) (now : Int) :
    applyCategoryUpdateFields ["is_deleted", "deleted_at"] s p now =
      { s with is_deleted := p.is_deleted, deleted_at := p.deleted_at } := rfl

theorem mem_le_foldr_max {l : List Nat} {x : Nat} (h : x ∈ l) : x ≤ l.foldr max 0 := by
  induction l with
  | nil => cases h
  | cons a tl ih =>
      rcases List.mem_cons.mp h with h1 | h1
      · subst h1; exact Nat.le_max_left _ _
      · exact Nat.le_trans (ih h1) (Nat.le_max_right _ _)

theorem freshId_not_mem {l : List Nat} : freshId l ∉ l := by
  intro h
  have := mem_le_foldr_max h
  unfold freshId at this
  omega

theorem getById_eq_none {store : ProductStore} {pid : Nat}
    (h : ∀ s ∈ store, (s.id == pid) = false) : getById store pid = none := by
  induction store with
  | nil => rfl
  | cons a tl ih =>
      have ha := h a (List.mem_cons_self a tl)
      simp [getById, ha]
      exact ih fun s hs => h s (List.mem_cons_of_mem a hs)

theorem getById_freshId_none (store : ProductStore) :
    getById store (freshId (store.map (fun r => r.id))) = none := by
  apply getById_eq_none
  intro s hs
  have hin : s.id ∈ store.map (fun r => r.id) := List.mem_map_of_mem _ hs
  have hne : s.id ≠ freshId (store.map (fun r => r.id)) := by
    intro h
    exact freshId_not_mem (h ▸ hin)
  simpa using hne

theorem productSave_of_ok {store : ProductStore} {p : ProductInstance} {now : Int}
    {uf : Option (List String)} (h : fullClean p = Except.ok ()) :
    productSave store p now uf = productWrite store (stripName p) now uf := by
  unfold productSave; rw [h]

theorem productWrite_at {store : ProductStore} {p : ProductInstance} {pid : Nat}
    {now : Int} {uf : Option (List String)} (hpk : p.pk = some pid) :
    productWrite store p now uf = productWriteAt store pid p now uf := by
  unfold productWrite; rw [hpk]

theorem productWriteAt_update {store : ProductStore} {p : ProductInstance} {pid : Nat}
    {r : ProductRow} {now : Int} {fs : List String}
    (h : getById store pid = some r) :
    productWriteAt store pid p now (some fs) =
      ⟨store.map (fun s => if s.id == pid then applyUpdateFields fs s p now else s),
        none, some pid, false⟩ := by
  unfold productWriteAt updateRow; rw [h]

theorem productSetDeleted {store : ProductStore} {r : ProductRow} {pid : Nat}
    (now : Int) (b : Bool) (d : Option Int)
    (hfind : getById store pid = some r)
    (hclean : fullClean (instanceOfRow r) = Except.ok ()) :
    productSave store { instanceOfRow r with is_deleted := b, deleted_at := d } now
        (some ["is_deleted", "deleted_at"]) =
      ⟨store.map (fun s => if s.id == pid then { s with is_deleted := b, deleted_at := d } else s),
        none, some pid, false⟩ := by
  have hcl : fullClean { instanceOfRow r with is_deleted := b, deleted_at := d } = Except.ok () := by
    rw [fullClean_set_flags]; exact hclean
  rw [productSave_of_ok hcl]
  have hpk : (stripName { instanceOfRow r with is_deleted := b, deleted_at := d }).pk = some pid := by
    rw [stripName_pk]
    show some r.id = some pid
    rw [getById_some_id hfind]
  rw [productWrite_at hpk, productWriteAt_update hfind]
  have hfuneq :
      (fun s : ProductRow => if s.id == pid then
          applyUpdateFields ["is_deleted", "deleted_at"] s
            (stripName { instanceOfRow r with is_deleted := b, deleted_at := d }) now
        else s) =
      (fun s : ProductRow => if s.id == pid then
          { s with is_deleted := b, deleted_at := d } else s) := by
    funext s
    by_cases hs : (s.id == pid) = true
    · rw [if_pos hs, if_pos hs, applyUpdateFields_soft, stripName_is_deleted, stripName_deleted_at]
    · rw [if_neg hs, if_neg hs]
  rw [hfuneq]

theorem instanceOfCategoryRow_set_flags (r : CategoryRow) (b : Bool) (d : Option Int) :
    instanceOfCategoryRow { r with is_deleted := b, deleted_at := d } =
      { instanceOfCategoryRow r with is_deleted := b, deleted_at := d } := rfl

theorem slugRegen_is_deleted (p : CategoryInstance) :
    (if p.slug = "" then { p with slug := slugify p.name } else p).is_deleted = p.is_deleted := by
  split <;> rfl

theorem slugRegen_deleted_at (p : CategoryInstance) :
    (if p.slug = "" then { p with slug := slugify p.name } else p).deleted_at = p.deleted_at := by
  split <;> rfl

theorem categorySave_at {store : CategoryStore} {p : CategoryInstance} {pid : Nat}
    {now : Int} {uf : Option (List String)} (hpk : p.pk = some pid) :
    categorySave store p now uf =
      categoryWriteAt store pid (if p.slug = "" then { p with slug := slugify p.name } else p)
        now uf := by
  unfold categorySave; rw [hpk]

theorem categoryWriteAt_update {store : CategoryStore} {p : CategoryInstance} {pid : Nat}
    {r : CategoryRow} {now : Int} {fs : List String}
    (h : getCategoryById store pid = some r) :
    categoryWriteAt store pid p now (some fs) =
      ⟨store.map (fun s => if s.id == pid then applyCategoryUpdateFields fs s p now else s),
        some pid, false⟩ := by
  unfold categoryWriteAt; rw [h]

theorem categorySetDeleted {store : CategoryStore} {r : CategoryRow} {pid : Nat}
    (now : Int) (b : Bool) (d : Option Int)
    (hfind : getCategoryById store pid = some r) :
    categorySave store { instanceOfCategoryRow r with is_deleted := b, deleted_at := d } now
        (some ["is_deleted", "deleted_at"]) =
      ⟨store.map (fun s => if s.id == pid then { s with is_deleted := b, deleted_at := d } else s),
        some pid, false⟩ := by
  have hpk : ({ instanceOfCategoryRow r with is_deleted := b, deleted_at := d } : CategoryInstance).pk = some pid := by
    show some r.id = some pid
    rw [getCategoryById_some_id hfind]
  rw [categorySave_at hpk, categoryWriteAt_update hfind]
  have hfuneq :
      (fun s : CategoryRow => if s.id == pid then
          applyCategoryUpdateFields ["is_deleted", "deleted_at"] s
            (if ({ instanceOfCategoryRow r with is_deleted := b, deleted_at := d } : CategoryInstance).slug = "" then
              { ({ instanceOfCategoryRow r with is_deleted := b, deleted_at := d } : CategoryInstance) with
                slug := slugify ({ instanceOfCategoryRow r with is_deleted := b, deleted_at := d } : CategoryInstance).name }
             else { instanceOfCategoryRow r with is_deleted := b, deleted_at := d }) now
        else s) =
      (fun s : CategoryRow => if s.id == pid then
          { s with is_deleted := b, deleted_at := d } else s) := by
    funext s
    by_cases hs : (s.id == pid) = true
    · rw [if_pos hs, if_pos hs, applyCategoryUpdateFields_soft, slugRegen_is_deleted,
        slugRegen_deleted_at]
    · rw [if_neg hs, if_neg hs]
  rw [hfuneq]

theorem productCleanRest_cases (p : ProductInstance) :
    productCleanRest p = Except.ok () ∨
      ∃ es, productCleanRest p = Except.error (SaveError.validation es) := by
  unfold productCleanRest
  split_ifs <;> first | exact Or.inl rfl | exact Or.inr ⟨_, rfl⟩

theorem fullClean_error_of_bad (p : ProductInstance) (h : priceBad p ∨ nameBad p) :
    ∃ e, fullClean p = Except.error e ∧
      ((∀ s, p.price ≠ PriceVal.raw s) → ∃ es, e = SaveError.validation es) := by
  cases hp : p.price with
  | raw s =>
      refine ⟨SaveError.typeError, ?_, ?_⟩
      · unfold fullClean productClean
        rw [hp]
      · intro hraw
        exact absurd rfl (hraw s)
  | null =>
      have hpc : productClean p = productCleanRest p := by
        unfold productClean; rw [hp]
      have hne : cleanFields p ≠ [] := by
        unfold cleanFields
        rw [hp]
        intro heq
        rcases List.append_eq_nil.mp heq with ⟨h1, h2⟩
        simp at h2
      rcases productCleanRest_cases p with hok | ⟨es, herr⟩
      · refine ⟨SaveError.validation (cleanFields p), ?_, fun _ => ⟨_, rfl⟩⟩
        unfold fullClean
        rw [hpc, hok, if_neg hne]
      · refine ⟨SaveError.validation (cleanFields p ++ es), ?_, fun _ => ⟨_, rfl⟩⟩
        unfold fullClean
        rw [hpc, herr]
  | num c =>
      by_cases hc0 : c ≤ 0
      · refine ⟨SaveError.validation (cleanFields p ++ [FieldError.pricePositive]), ?_, fun _ => ⟨_, rfl⟩⟩
        have hcl2 : productClean p = Except.error (SaveError.validation [FieldError.pricePositive]) := by
          simp only [productClean, hp]
          rw [if_pos hc0]
        unfold fullClean
        rw [hcl2]
      · have hnb : nameBad p := by
          rcases h with h | h
          · unfold priceBad at h
            rw [hp] at h
            exact absurd h hc0
          · exact h
        by_cases hcm : c > 999999999
        · refine ⟨SaveError.validation (cleanFields p ++ [FieldError.priceMax]), ?_, fun _ => ⟨_, rfl⟩⟩
          have hcl2 : productClean p = Except.error (SaveError.validation [FieldError.priceMax]) := by
            simp only [productClean, hp]
            rw [if_neg hc0, if_pos hcm]
          unfold fullClean
          rw [hcl2]
        · have hpc : productClean p = productCleanRest p := by
            simp only [productClean, hp]
            rw [if_neg hc0, if_neg hcm]
          by_cases hne : p.name = ""
          · have hcne : cleanFields p ≠ [] := by
              unfold cleanFields
              rw [if_pos hne]
              intro heq
              rcases List.append_eq_nil.mp heq with ⟨h1, h2⟩
              simp at h1
            rcases productCleanRest_cases p with hok | ⟨es, herr⟩
            · refine ⟨SaveError.validation (cleanFields p), ?_, fun _ => ⟨_, rfl⟩⟩
              unfold fullClean
              rw [hpc, hok, if_neg hcne]
            · refine ⟨SaveError.validation (cleanFields p ++ es), ?_, fun _ => ⟨_, rfl⟩⟩
              unfold fullClean
              rw [hpc, herr]
          · have hrest : ∃ es, productCleanRest p = Except.error (SaveError.validation es) := by
              unfold productCleanRest
              by_cases hws : pyStrip p.name = ""
              · rw [if_pos ⟨hne, hws⟩]
                exact ⟨_, rfl⟩
              · have hlen : (pyStrip p.name).length < 3 := by
                  rcases hnb with h1 | h1
                  · exact absurd h1 hws
                  · exact h1
                have hnand : ¬(p.name ≠ "" ∧ pyStrip p.name = "") := fun hand => hws hand.2
                rw [if_neg hnand, if_pos ⟨hne, hlen⟩]
                exact ⟨_, rfl⟩
            obtain ⟨es, herr⟩ := hrest
            refine ⟨SaveError.validation (cleanFields p ++ es), ?_, fun _ => ⟨_, rfl⟩⟩
            unfold fullClean
            rw [hpc, herr]

theorem runScheduleHandler_fst (x : List EnqueueCall × Except PyExc (List LogEntry)) :
    (runScheduleHandler x).1 = x.1 := by
  rcases x with ⟨calls, res⟩
  cases res <;> rfl

theorem schedule_fst (created : Bool) (pid : Nat) (pname : String) (outcome : AsyncOutcome) :
    (scheduleProductNotification created pid pname outcome none).1 =
      (if created then [⟨"core.tasks.notify_new_product", pid, pname⟩] else []) := by
  cases created <;> cases outcome <;> rfl

theorem pipeline_of_error {store : ProductStore} {p : ProductInstance} {now : Int}
    {uf : Option (List String)} {o : HookOracles} {e : SaveError}
    (h : fullClean p = Except.error e) :
    productSavePipeline store p now uf o = ⟨store, some e, none, false, [], []⟩ := by
  unfold productSavePipeline
  rw [h]

theorem pipeline_of_ok {store : ProductStore} {p : ProductInstance} {now : Int}
    {uf : Option (List String)} {o : HookOracles} (h : fullClean p = Except.ok ()) :
    productSavePipeline store p now uf o =
      ⟨(productWrite store (stripName p) now uf).store, none,
       (productWrite store (stripName p) now uf).savedPk,
       (productWrite store (stripName p) now uf).created,
       (runScheduleHandler (scheduleProductNotification
          (productWrite store (stripName p) now uf).created
          ((productWrite store (stripName p) now uf).savedPk.getD 0)
          (stripName p).name o.outcome o.notifOuterFail)).1,
       runLogsHandler (productPreSaveHandler store (stripName p) o.preFail) ++
         (runScheduleHandler (scheduleProductNotification
            (productWrite store (stripName p) now uf).created
            ((productWrite store (stripName p) now uf).savedPk.getD 0)
            (stripName p).name o.outcome o.notifOuterFail)).2 ++
         runLogsHandler (updateSearchIndexHandler false o.searchFail)⟩ := by
  unfold productSavePipeline
  rw [h]

theorem productWrite_insert {store : ProductStore} {p : ProductInstance} {now : Int}
    {uf : Option (List String)} (hpk : p.pk = none) :
    productWrite store p now uf = productInsertNew store p now := by
  unfold productWrite
  rw [hpk]

theorem productWriteAt_insert {store : ProductStore} {pid : Nat} {p : ProductInstance}
    {now : Int} {uf : Option (List String)} (h : getById store pid = none) :
    productWriteAt store pid p now uf = ⟨store ++ [insertRow pid p now], none, some pid, true⟩ := by
  unfold productWriteAt
  rw [h]

theorem productWriteAt_existing {store : ProductStore} {pid : Nat} {p : ProductInstance}
    {now : Int} {uf : Option (List String)} {s : ProductRow}
    (h : getById store pid = some s) :
    (productWriteAt store pid p now uf).created = false ∧
    (productWriteAt store pid p now uf).savedPk = some pid := by
  unfold productWriteAt
  rw [h]
  cases uf <;> exact ⟨rfl, rfl⟩

theorem productWrite_error_none (store : ProductStore) (p : ProductInstance) (now : Int)
    (uf : Option (List String)) : (productWrite store p now uf).error = none := by
  cases hp : p.pk with
  | none =>
      rw [productWrite_insert hp]
      rfl
  | some pid =>
      rw [productWrite_at hp]
      cases hg : getById store pid with
      | none => rw [productWriteAt_insert hg]
      | some s =>
          unfold productWriteAt
          rw [hg]
          cases uf <;> rfl

theorem getById_append_none {store : ProductStore} {pid : Nat} (row : ProductRow)
    (h : getById store pid = none) :
    getById (store ++ [row]) pid = if row.id == pid then some row else none := by
  induction store with
  | nil => rfl
  | cons a tl ih =>
      by_cases ha : (a.id == pid) = true
      · rw [show getById (a :: tl) pid = if a.id == pid then some a else getById tl pid from rfl,
          if_pos ha] at h
        exact Option.noConfusion h
      · rw [show getById (a :: tl) pid = if a.id == pid then some a else getById tl pid from rfl,
          if_neg ha] at h
        rw [List.cons_append]
        rw [show getById (a :: (tl ++ [row])) pid =
            if a.id == pid then some a else getById (tl ++ [row]) pid from rfl, if_neg ha]
        exact ih h

theorem createUserProfileHandler_create_ok (profiles : ProfileStore) (u : UserRow) :
    createUserProfileHandler profiles u true none =
      Except.ok (profiles ++ [⟨freshId (profiles.map (fun pr => pr.id)), u.id, false⟩],
        [⟨LogLevel.info, "UserProfile created for user " ++ u.username⟩]) := rfl

theorem createUserProfileHandler_create_fail (profiles : ProfileStore) (u : UserRow) (e : PyExc) :
    createUserProfileHandler profiles u true (some e) =
      Except.ok (profiles, [caughtLog "create_user_profile"]) := rfl

theorem saveUserProfileHandler_has_none (profiles : ProfileStore) (u : UserRow)
    (h : profiles.any (fun pr => pr.userId == u.id) = true) :
    saveUserProfileHandler profiles u none = Except.ok (profiles, []) := by
  unfold saveUserProfileHandler saveUserProfileBody
  rw [if_pos h]

theorem saveUserProfileHandler_has_fail (profiles : ProfileStore) (u : UserRow) (e : PyExc)
    (h : profiles.any (fun pr => pr.userId == u.id) = true) :
    saveUserProfileHandler profiles u (some e) =
      Except.ok (profiles, [caughtLog "save_user_profile"]) := by
  unfold saveUserProfileHandler saveUserProfileBody
  rw [if_pos h]

theorem saveUserProfileHandler_missing_none (profiles : ProfileStore) (u : UserRow)
    (h : profiles.any (fun pr => pr.userId == u.id) = false) :
    saveUserProfileHandler profiles u none =
      Except.ok (profiles ++ [⟨freshId (profiles.map (fun pr => pr.id)), u.id, false⟩],
        [⟨LogLevel.warning, "UserProfile was missing for user " ++ u.username ++ ", created now"⟩]) := by
  unfold saveUserProfileHandler saveUserProfileBody
  rw [if_neg (by simp [h])]

/-! ## Claims -/

/-- C1: soft-deleting a Product — `Product.soft_delete()`, also invoked via
`DELETE /api/v1/products/{id}/` through `perform_destroy` — sets
`is_deleted` to true and `deleted_at` to a non-null timestamp while the row
count is unchanged and the row stays retrievable (no physical removal);
`Product.restore()` sets `is_deleted` to false and `deleted_at` to null. -/
theorem c1_soft_delete_and_restore
    (store : ProductStore) (pid : Nat) (r : ProductRow) (now now2 : Int)
    (hfind : getById store pid = some r)
    (hclean : fullClean (instanceOfRow r) = Except.ok ()) :
    ∃ res : SaveResult,
      performDestroy store pid now = some res ∧
      res.error = none ∧
      res.store.length = store.length ∧
      getById res.store pid = some { r with is_deleted := true, deleted_at := some now } ∧
      (productRestore res.store
          (instanceOfRow { r with is_deleted := true, deleted_at := some now }) now2).error = none ∧
      (productRestore res.store
          (instanceOfRow { r with is_deleted := true, deleted_at := some now }) now2).store.length = store.length ∧
      getById (productRestore res.store
          (instanceOfRow { r with is_deleted := true, deleted_at := some now }) now2).store pid =
        some { r with is_deleted := false, deleted_at := none } := by
  have hsd : productSoftDelete store (instanceOfRow r) now =
      ⟨store.map (fun s => if s.id == pid then
          { s with is_deleted := true, deleted_at := some now } else s),
        none, some pid, false⟩ :=
    @productSetDeleted store r pid now true (some now) hfind hclean
  have hfind1 : getById (store.map (fun s => if s.id == pid then
      { s with is_deleted := true, deleted_at := some now } else s)) pid =
      some { r with is_deleted := true, deleted_at := some now } :=
    getById_map_ite _ (fun s => rfl) hfind
  have hclean1 : fullClean (instanceOfRow { r with is_deleted := true, deleted_at := some now }) =
      Except.ok () := by
    rw [instanceOfRow_set_flags, fullClean_set_flags]
    exact hclean
  have hrs : productRestore (store.map (fun s => if s.id == pid then
      { s with is_deleted := true, deleted_at := some now } else s))
      (instanceOfRow { r with is_deleted := true, deleted_at := some now }) now2 =
      ⟨(store.map (fun s => if s.id == pid then
          { s with is_deleted := true, deleted_at := some now } else s)).map
          (fun s => if s.id == pid then { s with is_deleted := false, deleted_at := none } else s),
        none, some pid, false⟩ :=
    @productSetDeleted _ _ pid now2 false none hfind1 hclean1
  have hfind2 := getById_map_ite
    (fun s => { s with is_deleted := false, deleted_at := none }) (fun s => rfl) hfind1
  refine ⟨productSoftDelete store (instanceOfRow r) now, ?_, ?_, ?_, ?_, ?_, ?_, ?_⟩
  · unfold performDestroy
    rw [hfind]
    rfl
  · rw [hsd]
  · rw [hsd]
    exact List.length_map store _
  · rw [hsd]
    exact hfind1
  · rw [hsd]
    rw [hrs]
  · rw [hsd, hrs]
    simp
  · rw [hsd, hrs]
    exact hfind2

/-- Witness for C1 at a concrete one-row store. -/
theorem c1_witness :
    ∃ res : SaveResult,
      performDestroy [⟨1, "Widget", 1000, 5, none, 0, 0, false, none, none, none⟩] 1 100 = some res ∧
      res.error = none ∧
      res.store.length = 1 ∧
      getById res.store 1 = some ⟨1, "Widget", 1000, 5, none, 0, 0, true, some 100, none, none⟩ ∧
      (productRestore res.store
          (instanceOfRow ⟨1, "Widget", 1000, 5, none, 0, 0, true, some 100, none, none⟩) 200).error = none ∧
      (productRestore res.store
          (instanceOfRow ⟨1, "Widget", 1000, 5, none, 0, 0, true, some 100, none, none⟩) 200).store.length = 1 ∧
      getById (productRestore res.store
          (instanceOfRow ⟨1, "Widget", 1000, 5, none, 0, 0, true, some 100, none, none⟩) 200).store 1 =
        some ⟨1, "Widget", 1000, 5, none, 0, 0, false, none, none, none⟩ :=
  c1_soft_delete_and_restore
    [⟨1, "Widget", 1000, 5, none, 0, 0, false, none, none, none⟩] 1
    ⟨1, "Widget", 1000, 5, none, 0, 0, false, none, none, none⟩ 100 200 rfl rfl

/-- C10: `soft_delete()` and `restore()` persist changes only to the
`is_deleted` and `deleted_at` columns, for `Product` and for `Category`:
the stored table after such an operation equals the old table with only
those two columns of the target row replaced — `name`, `price`, `stock`,
`category`, `slug`, `description`, `parent`, `created_at`, `created_by`,
`updated_by`, and (since the save is restricted via `update_fields`) even
the auto-updated `updated_at` are unchanged, and no other row is touched. -/
theorem c10_soft_delete_restore_frame
    (storeP : ProductStore) (rp : ProductRow) (pidP : Nat)
    (storeC : CategoryStore) (rc : CategoryRow) (pidC : Nat) (now : Int)
    (hfp : getById storeP pidP = some rp)
    (hcp : fullClean (instanceOfRow rp) = Except.ok ())
    (hfc : getCategoryById storeC pidC = some rc) :
    (productSoftDelete storeP (instanceOfRow rp) now).store =
      storeP.map (fun s => if s.id == pidP then
        { s with is_deleted := true, deleted_at := some now } else s) ∧
    (productRestore storeP (instanceOfRow rp) now).store =
      storeP.map (fun s => if s.id == pidP then
        { s with is_deleted := false, deleted_at := none } else s) ∧
    (categorySoftDelete storeC (instanceOfCategoryRow rc) now).store =
      storeC.map (fun s => if s.id == pidC then
        { s with is_deleted := true, deleted_at := some now } else s) ∧
    (categoryRestore storeC (instanceOfCategoryRow rc) now).store =
      storeC.map (fun s => if s.id == pidC then
        { s with is_deleted := false, deleted_at := none } else s) := by
  refine ⟨?_, ?_, ?_, ?_⟩
  · exact congrArg SaveResult.store (@productSetDeleted storeP rp pidP now true (some now) hfp hcp)
  · exact congrArg SaveResult.store (@productSetDeleted storeP rp pidP now false none hfp hcp)
  · exact congrArg CategorySaveResult.store
      (@categorySetDeleted storeC rc pidC now true (some now) hfc)
  · exact congrArg CategorySaveResult.store
      (@categorySetDeleted storeC rc pidC now false none hfc)

/-- Witness for C10 at concrete one-row product and category stores. -/
theorem c10_witness :
    (productSoftDelete [⟨7, "Gadget", 2500, 3, some 4, 10, 20, false, none, some 2, some 3⟩]
        (instanceOfRow ⟨7, "Gadget", 2500, 3, some 4, 10, 20, false, none, some 2, some 3⟩) 99).store =
      [⟨7, "Gadget", 2500, 3, some 4, 10, 20, true, some 99, some 2, some 3⟩] ∧
    (productRestore [⟨7, "Gadget", 2500, 3, some 4, 10, 20, false, none, some 2, some 3⟩]
        (instanceOfRow ⟨7, "Gadget", 2500, 3, some 4, 10, 20, false, none, some 2, some 3⟩) 99).store =
      [⟨7, "Gadget", 2500, 3, some 4, 10, 20, false, none, some 2, some 3⟩] ∧
    (categorySoftDelete [⟨5, "Books", "books", "d", some 1, 10, 20, false, none, some 2, some 3⟩]
        (instanceOfCategoryRow ⟨5, "Books", "books", "d", some 1, 10, 20, false, none, some 2, some 3⟩) 99).store =
      [⟨5, "Books", "books", "d", some 1, 10, 20, true, some 99, some 2, some 3⟩] ∧
    (categoryRestore [⟨5, "Books", "books", "d", some 1, 10, 20, false, none, some 2, some 3⟩]
        (instanceOfCategoryRow ⟨5, "Books", "books", "d", some 1, 10, 20, false, none, some 2, some 3⟩) 99).store =
      [⟨5, "Books", "books", "d", some 1, 10, 20, false, none, some 2, some 3⟩] :=
  c10_soft_delete_restore_frame
    [⟨7, "Gadget", 2500, 3, some 4, 10, 20, false, none, some 2, some 3⟩]
    ⟨7, "Gadget", 2500, 3, some 4, 10, 20, false, none, some 2, some 3⟩ 7
    [⟨5, "Books", "books", "d", some 1, 10, 20, false, none, some 2, some 3⟩]
    ⟨5, "Books", "books", "d", some 1, 10, 20, false, none, some 2, some 3⟩ 5 99
    rfl rfl rfl

/-- C3 counterexample: the claim says every bad write "raises a validation
error". For a price attribute holding a non-numeric value, Django
`clean_fields` fails to convert it and leaves the raw value in place, and
`Model.full_clean` still runs `Product.clean` (only `ValidationError` is
caught around it), whose guard `self.price <= 0` then raises `TypeError` —
an error that is not a validation error. The write is still rejected with
the store unchanged. -/
theorem c3_counterexample :
    productSave [] ⟨none, "Widget", PriceVal.raw "abc", 0, none, 0, 0, false, none, none, none⟩
        0 none =
      ⟨[], some SaveError.typeError, none, false⟩ ∧
    (∀ es : List FieldError, SaveError.typeError ≠ SaveError.validation es) := by
  refine ⟨rfl, ?_⟩
  intro es h
  exact SaveError.noConfusion h

/-- C3 (amended): for every attempted `Product.save` where the price is
non-positive, `None`, or non-numeric, or the name is empty,
whitespace-only, or shorter than 3 characters after trimming, the save
raises an error before anything is written and the store is unchanged; the
error is a validation error in every case except a non-null non-numeric
price, where `Product.clean` raises a type error instead. -/
theorem c3_invalid_write_rejected
    (store : ProductStore) (p : ProductInstance) (now : Int)
    (uf : Option (List String)) (h : priceBad p ∨ nameBad p) :
    (productSave store p now uf).store = store ∧
    (productSave store p now uf).error ≠ none ∧
    ((∀ s, p.price ≠ PriceVal.raw s) →
      ∃ es, (productSave store p now uf).error = some (SaveError.validation es)) := by
  obtain ⟨e, he, hval⟩ := fullClean_error_of_bad p h
  unfold productSave
  rw [he]
  refine ⟨rfl, ?_, ?_⟩
  · intro hc
    exact Option.noConfusion hc
  · intro hraw
    obtain ⟨es, hes⟩ := hval hraw
    exact ⟨es, by rw [hes]⟩

/-- Witness for C3 (amended): a non-positive price and a too-short name at
concrete instances are rejected with the store unchanged. -/
theorem c3_witness :
    (productSave [] ⟨none, "Widget", PriceVal.num (-500), 0, none, 0, 0, false, none, none, none⟩
        0 none).store = [] ∧
    (productSave [] ⟨none, "Widget", PriceVal.num (-500), 0, none, 0, 0, false, none, none, none⟩
        0 none).error ≠ none ∧
    (productSave [] ⟨none, "ab", PriceVal.num 1000, 0, none, 0, 0, false, none, none, none⟩
        0 none).store = [] ∧
    (productSave [] ⟨none, "ab", PriceVal.num 1000, 0, none, 0, 0, false, none, none, none⟩
        0 none).error ≠ none :=
  ⟨(c3_invalid_write_rejected [] ⟨none, "Widget", PriceVal.num (-500), 0, none, 0, 0, false, none, none, none⟩
      0 none (Or.inl (by simp [priceBad]))).1,
   (c3_invalid_write_rejected [] ⟨none, "Widget", PriceVal.num (-500), 0, none, 0, 0, false, none, none, none⟩
      0 none (Or.inl (by simp [priceBad]))).2.1,
   (c3_invalid_write_rejected [] ⟨none, "ab", PriceVal.num 1000, 0, none, 0, 0, false, none, none, none⟩
      0 none (Or.inr (Or.inr (by decide)))).1,
   (c3_invalid_write_rejected [] ⟨none, "ab", PriceVal.num 1000, 0, none, 0, 0, false, none, none, none⟩
      0 none (Or.inr (Or.inr (by decide)))).2.1⟩

/-- C5: `notify_new_product` returns a structured result with status
"error" and error "product_not_found" — without raising — when no product
with the given id exists; on an unexpected exception after the lookup it
re-raises (after logging) so the queue library can retry; otherwise it
returns a success result carrying the product id and the product name. -/
theorem c5_notify_new_product
    (store : ProductStore) (pid : Nat) (pname : String) (fail : Option PyExc) :
    (getById store pid = none →
      notify_new_product store pid pname fail =
        Except.ok ⟨"error", some "product_not_found", pid, none⟩) ∧
    (∀ p, getById store pid = some p → fail = none →
      notify_new_product store pid pname fail =
        Except.ok ⟨"success", none, pid, some p.name⟩) ∧
    (∀ p e, getById store pid = some p → fail = some e →
      notify_new_product store pid pname fail = Except.error e) := by
  refine ⟨?_, ?_, ?_⟩
  · intro hnone
    unfold notify_new_product
    rw [hnone]
  · intro p hp hfail
    unfold notify_new_product
    rw [hp, hfail]
  · intro p e hp hfail
    unfold notify_new_product
    rw [hp, hfail]

/-- Witness for C5: a missing product returns the structured error result,
a present product returns success, and an injected infrastructure failure
re-raises. -/
theorem c5_witness :
    notify_new_product [] 9 "Gone" none =
      Except.ok ⟨"error", some "product_not_found", 9, none⟩ ∧
    notify_new_product [⟨9, "Widget", 1000, 0, none, 0, 0, false, none, none, none⟩] 9 "Widget" none =
      Except.ok ⟨"success", none, 9, some "Widget"⟩ ∧
    notify_new_product [⟨9, "Widget", 1000, 0, none, 0, 0, false, none, none, none⟩] 9 "Widget"
        (some PyExc.dbError) = Except.error PyExc.dbError :=
  ⟨(c5_notify_new_product [] 9 "Gone" none).1 rfl,
   (c5_notify_new_product [⟨9, "Widget", 1000, 0, none, 0, 0, false, none, none, none⟩] 9 "Widget"
      none).2.1 ⟨9, "Widget", 1000, 0, none, 0, 0, false, none, none, none⟩ rfl rfl,
   (c5_notify_new_product [⟨9, "Widget", 1000, 0, none, 0, 0, false, none, none, none⟩] 9 "Widget"
      (some PyExc.dbError)).2.2 ⟨9, "Widget", 1000, 0, none, 0, 0, false, none, none, none⟩
      PyExc.dbError rfl rfl⟩

/-- C7 counterexample: with categories A (id 1, root), B (id 2, parent A)
and C (id 3, parent B), the update that sets the parent of A to C is
accepted by `validate_parent` — only cycles of length 1 and 2 are checked —
although it makes A its own ancestor (a cycle of length 3). -/
theorem c7_counterexample :
    validate_parent (some ⟨1, "A", "a", "", none, 0, 0, false, none, none, none⟩)
        (some ⟨3, "C", "c", "", some 2, 0, 0, false, none, none, none⟩) =
      Except.ok (some ⟨3, "C", "c", "", some 2, 0, 0, false, none, none, none⟩) ∧
    reachesAncestor
        (setParent
          [⟨1, "A", "a", "", none, 0, 0, false, none, none, none⟩,
           ⟨2, "B", "b", "", some 1, 0, 0, false, none, none, none⟩,
           ⟨3, "C", "c", "", some 2, 0, 0, false, none, none, none⟩] 1 (some 3))
        3 1 1 = true :=
  ⟨rfl, rfl⟩

/-- C7 (amended): on an update (`self.instance` bound) the API validation
layer rejects exactly a parent equal to the category itself (cycle of
length 1) or a parent whose own parent is the category (cycle of length 2);
any other parent value is accepted, so longer cycles are not detected (and
creates are never checked). -/
theorem c7_validate_parent_characterization (inst v : CategoryRow) :
    validate_parent (some inst) (some v) =
      (if v.id = inst.id then Except.error ParentValError.ownParent
       else if v.parentId = some inst.id then Except.error ParentValError.circular
       else Except.ok (some v)) := by
  show (if (v.id == inst.id) = true then Except.error ParentValError.ownParent
        else
          match v.parentId with
          | some gp =>
              if (gp == inst.id) = true then Except.error ParentValError.circular
              else Except.ok (some v)
          | none => Except.ok (some v)) =
      (if v.id = inst.id then Except.error ParentValError.ownParent
       else if v.parentId = some inst.id then Except.error ParentValError.circular
       else Except.ok (some v))
  by_cases h1 : (v.id == inst.id) = true
  · rw [if_pos h1, if_pos (by simpa using h1)]
  · rw [if_neg h1, if_neg (by simpa using h1)]
    cases hv : v.parentId with
    | none =>
        rw [if_neg (by simp)]
    | some gp =>
        show (if (gp == inst.id) = true then Except.error ParentValError.circular
              else Except.ok (some v)) =
            (if some gp = some inst.id then Except.error ParentValError.circular
             else Except.ok (some v))
        by_cases h2 : (gp == inst.id) = true
        · have hg : gp = inst.id := by simpa using h2
          rw [if_pos h2, if_pos (by rw [hg])]
        · have hg : ¬gp = inst.id := by simpa using h2
          rw [if_neg h2, if_neg (by simp [hg])]

/-- C8: `GET /api/v1/products/recent/?days=d` returns, when `1 ≤ d ≤ 365`,
a 200 payload holding exactly the non-soft-deleted products created within
the last `d` days, and a 400 response for every integer `d` outside that
range. -/
theorem c8_recent (store : ProductStore) (now : Int) (d : Int) :
    recentAction store now (some d) =
      (if 1 ≤ d ∧ d ≤ 365 then
        RecentResponse.ok (store.filter
          (fun r => r.is_deleted == false && decide (now - d * 86400 ≤ r.created_at)))
       else RecentResponse.badRequest) := by
  have hqs : productGetQueryset store none none false = store := rfl
  unfold recentAction secondsPerDay
  rw [Option.getD_some, hqs]
  by_cases h : 1 ≤ d ∧ d ≤ 365
  · rw [if_neg (by omega : ¬(d < 1 ∨ d > 365)), if_pos h]
    have hfun : (fun r : ProductRow => decide (now - d * 86400 ≤ r.created_at) && r.is_deleted == false) =
        (fun r : ProductRow => r.is_deleted == false && decide (now - d * 86400 ≤ r.created_at)) := by
      funext r
      exact Bool.and_comm _ _
    show RecentResponse.ok (store.filter
        (fun r => decide (now - d * 86400 ≤ r.created_at) && r.is_deleted == false)) = _
    rw [hfun]
  · rw [if_pos (by omega : d < 1 ∨ d > 365), if_neg h]

/-- C9: the claim and the specification expect
`GET /api/v1/categories/tree/` with roots "Electronics" → "Laptops" to
return 200 with the nested tree; the code instead fails before rendering
any category, because `CategorySerializer.Meta.fields` still lists
`is_active`, a field the `Category` model no longer has (the soft-delete
rename left `is_deleted`), so DRF raises `ImproperlyConfigured` when the
serializer fields are built and the endpoint errors. -/
theorem c9_tree_misconfigured :
    categoryTree
        [⟨1, "Electronics", "electronics", "", none, 0, 0, false, none, none, none⟩,
         ⟨2, "Laptops", "laptops", "", some 1, 0, 0, false, none, none, none⟩] =
      Except.error (SerializerError.unknownField "is_active") := rfl

/-- C6: creating a User leaves exactly one UserProfile row associated with
the new user, although two post-save receivers fire on the creation:
`create_user_profile` creates the profile and `save_user_profile` then
sees it through the reverse one-to-one and only saves it (no duplicate);
if the first receiver's create failed, the second receiver's fallback
create still produces the single profile (no zero-profile outcome as long
as the store accepts at least one of the two inserts). -/
theorem c6_exactly_one_profile
    (users : List UserRow) (profiles : ProfileStore) (username : String)
    (fail1 fail2 : Option PyExc)
    (hfresh : profiles.countP (fun pr => pr.userId == freshId (users.map (fun r => r.id))) = 0)
    (hsucc : fail1 = none ∨ fail2 = none) :
    ((createUser users profiles username fail1 fail2).2.1.countP
      (fun pr => pr.userId == freshId (users.map (fun r => r.id)))) = 1 := by
  have hnotin : ∀ pr ∈ profiles,
      ¬((fun pr : ProfileRow => pr.userId == freshId (users.map (fun r => r.id))) pr = true) := by
    intro pr hpr
    exact (List.countP_eq_zero.mp hfresh) pr hpr
  cases hf1 : fail1 with
  | none =>
      have h1 := createUserProfileHandler_create_ok profiles
        ⟨freshId (users.map (fun r => r.id)), username⟩
      have hany : (profiles ++ [(⟨freshId (profiles.map (fun pr => pr.id)),
          freshId (users.map (fun r => r.id)), false⟩ : ProfileRow)]).any
          (fun pr => pr.userId == freshId (users.map (fun r => r.id))) = true := by
        rw [List.any_eq_true]
        refine ⟨⟨freshId (profiles.map (fun pr => pr.id)),
          freshId (users.map (fun r => r.id)), false⟩, ?_, ?_⟩
        · exact List.mem_append_right _ (List.mem_singleton_self _)
        · simp
      have hcount : (profiles ++ [(⟨freshId (profiles.map (fun pr => pr.id)),
          freshId (users.map (fun r => r.id)), false⟩ : ProfileRow)]).countP
          (fun pr => pr.userId == freshId (users.map (fun r => r.id))) = 1 := by
        rw [List.countP_append, hfresh]
        simp
      cases hf2 : fail2 with
      | none =>
          have h2 := saveUserProfileHandler_has_none _
            ⟨freshId (users.map (fun r => r.id)), username⟩ hany
          simp only [createUser, h1, h2]
          exact hcount
      | some e2 =>
          have h2 := saveUserProfileHandler_has_fail _
            ⟨freshId (users.map (fun r => r.id)), username⟩ e2 hany
          simp only [createUser, h1, h2]
          exact hcount
  | some e1 =>
      have hf2 : fail2 = none := by
        rcases hsucc with h | h
        · rw [hf1] at h
          exact Option.noConfusion h
        · exact h
      subst hf2
      have h1 := createUserProfileHandler_create_fail profiles
        ⟨freshId (users.map (fun r => r.id)), username⟩ e1
      have hany0 : profiles.any
          (fun pr => pr.userId == freshId (users.map (fun r => r.id))) = false := by
        rw [List.any_eq_false]
        intro pr hpr
        exact hnotin pr hpr
      have h2 := saveUserProfileHandler_missing_none profiles
        ⟨freshId (users.map (fun r => r.id)), username⟩ hany0
      simp only [createUser, h1, h2]
      rw [List.countP_append, hfresh]
      simp

/-- Witness for C6: creating a user over empty tables yields exactly one
profile row, also when the first receiver's insert fails and the fallback
in the second receiver creates the profile. -/
theorem c6_witness :
    ((createUser [] [] "alice" none none).2.1.countP
      (fun pr => pr.userId == freshId (([] : List UserRow).map (fun r => r.id)))) = 1 ∧
    ((createUser [] [] "bob" (some PyExc.dbError) none).2.1.countP
      (fun pr => pr.userId == freshId (([] : List UserRow).map (fun r => r.id)))) = 1 :=
  ⟨c6_exactly_one_profile [] [] "alice" none none rfl (Or.inl rfl),
   c6_exactly_one_profile [] [] "bob" (some PyExc.dbError) none rfl (Or.inr rfl)⟩

/-- C2: a `Product.save` that creates a new row makes exactly one enqueue
call, the task `core.tasks.notify_new_product` carrying that product's id
and name (the row stored under the saved primary key); a save that updates
an existing row makes zero enqueue calls. The async outcome and the
pre-save oracle are arbitrary: a failing broker does not change that the
one call was made. -/
theorem c2_create_enqueues_exactly_one
    (store : ProductStore) (p : ProductInstance) (now : Int)
    (uf : Option (List String)) (preFail : Option PyExc) (outcome : AsyncOutcome) :
    ((productSavePipeline store p now uf ⟨preFail, outcome, none, none⟩).error = none ∧
     (productSavePipeline store p now uf ⟨preFail, outcome, none, none⟩).created = true →
      (getById (productSavePipeline store p now uf ⟨preFail, outcome, none, none⟩).store
          ((productSavePipeline store p now uf ⟨preFail, outcome, none, none⟩).savedPk.getD 0)).map
        (fun r => ([⟨"core.tasks.notify_new_product", r.id, r.name⟩] : List EnqueueCall)) =
      some (productSavePipeline store p now uf ⟨preFail, outcome, none, none⟩).enqueues) ∧
    ((productSavePipeline store p now uf ⟨preFail, outcome, none, none⟩).error = none ∧
     (productSavePipeline store p now uf ⟨preFail, outcome, none, none⟩).created = false →
      (productSavePipeline store p now uf ⟨preFail, outcome, none, none⟩).enqueues = []) := by
  cases hfc : fullClean p with
  | error e =>
      rw [pipeline_of_error hfc]
      exact ⟨fun hcr => Option.noConfusion hcr.1, fun hcr => Option.noConfusion hcr.1⟩
  | ok u =>
      cases u
      rw [pipeline_of_ok hfc]
      simp only []
      rw [runScheduleHandler_fst, schedule_fst]
      cases hpk : (stripName p).pk with
      | none =>
          rw [productWrite_insert hpk]
          simp only [productInsertNew]
          refine ⟨fun hcr => ?_, fun hcr => Bool.noConfusion hcr.2⟩
          rw [Option.getD_some]
          rw [getById_append_none _ (getById_freshId_none store), if_pos (by simp [insertRow, fullUpdateRow])]
          rfl
      | some pid1 =>
          rw [productWrite_at hpk]
          cases hgb : getById store pid1 with
          | none =>
              rw [productWriteAt_insert hgb]
              simp only []
              refine ⟨fun hcr => ?_, fun hcr => Bool.noConfusion hcr.2⟩
              rw [Option.getD_some]
              rw [getById_append_none _ hgb, if_pos (by simp [insertRow, fullUpdateRow])]
              rfl
          | some s =>
              obtain ⟨hc, hk⟩ := productWriteAt_existing hgb
              refine ⟨fun hcr => ?_, fun hcr => ?_⟩
              · rw [hc] at hcr
                exact Bool.noConfusion hcr.2
              · rw [hc]
                simp

/-- Witness for C2 at concrete inputs: a creation over an empty store makes
the one enqueue call with the new row's id and name, and an update of an
existing row makes none. -/
theorem c2_witness :
    (getById (productSavePipeline []
        ⟨none, "Widget", PriceVal.num 1000, 0, none, 0, 0, false, none, none, none⟩ 50 none
        ⟨none, AsyncOutcome.accepted 1, none, none⟩).store
        ((productSavePipeline []
          ⟨none, "Widget", PriceVal.num 1000, 0, none, 0, 0, false, none, none, none⟩ 50 none
          ⟨none, AsyncOutcome.accepted 1, none, none⟩).savedPk.getD 0)).map
      (fun r => ([⟨"core.tasks.notify_new_product", r.id, r.name⟩] : List EnqueueCall)) =
    some (productSavePipeline []
        ⟨none, "Widget", PriceVal.num 1000, 0, none, 0, 0, false, none, none, none⟩ 50 none
        ⟨none, AsyncOutcome.accepted 1, none, none⟩).enqueues ∧
    (productSavePipeline [⟨3, "Widget", 1000, 0, none, 0, 0, false, none, none, none⟩]
        ⟨some 3, "Widget", PriceVal.num 2000, 0, none, 0, 0, false, none, none, none⟩ 60 none
        ⟨none, AsyncOutcome.accepted 1, none, none⟩).enqueues = [] :=
  ⟨(c2_create_enqueues_exactly_one []
      ⟨none, "Widget", PriceVal.num 1000, 0, none, 0, 0, false, none, none, none⟩ 50 none
      none (AsyncOutcome.accepted 1)).1 ⟨rfl, rfl⟩,
   (c2_create_enqueues_exactly_one [⟨3, "Widget", 1000, 0, none, 0, 0, false, none, none, none⟩]
      ⟨some 3, "Widget", PriceVal.num 2000, 0, none, 0, 0, false, none, none, none⟩ 60 none
      none (AsyncOutcome.accepted 1)).2 ⟨rfl, rfl⟩⟩

/-- C4: no mutation hook lets an exception escape — the pre-save change
tracker, the post-save notification scheduler, the post-save search-index
updater, the post-delete cleanup, and the two user post-save profile
receivers all return normally for every input and every injected internal
failure (missing previous row, unavailable queue, failed profile creation,
unexpected exception) — and the triggering database write completes
unaffected: the save pipeline yields the same store and error as the
signal-free save for all oracles, the hard delete removes the row for all
oracles, and the user INSERT lands for all oracles. -/
theorem c4_hooks_never_raise_write_completes :
    (∀ (store : ProductStore) (p : ProductInstance) (fail : Option PyExc),
      ∃ logs, productPreSaveHandler store p fail = Except.ok logs) ∧
    (∀ (created : Bool) (pid : Nat) (pname : String) (outcome : AsyncOutcome)
        (outerFail : Option PyExc),
      ∃ logs, (scheduleProductNotification created pid pname outcome outerFail).2 =
        Except.ok logs) ∧
    (∀ (raw : Bool) (fail : Option PyExc),
      ∃ logs, updateSearchIndexHandler raw fail = Except.ok logs) ∧
    (∀ (pid : Nat) (pname : String) (fail : Option PyExc),
      ∃ logs, productPostDeleteHandler pid pname fail = Except.ok logs) ∧
    (∀ (profiles : ProfileStore) (u : UserRow) (created : Bool) (fail : Option PyExc),
      ∃ res, createUserProfileHandler profiles u created fail = Except.ok res) ∧
    (∀ (profiles : ProfileStore) (u : UserRow) (fail : Option PyExc),
      ∃ res, saveUserProfileHandler profiles u fail = Except.ok res) ∧
    (∀ (store : ProductStore) (p : ProductInstance) (now : Int)
        (uf : Option (List String)) (o : HookOracles),
      (productSavePipeline store p now uf o).store = (productSave store p now uf).store ∧
      (productSavePipeline store p now uf o).error = (productSave store p now uf).error) ∧
    (∀ (store : ProductStore) (r : ProductRow) (fail : Option PyExc),
      (productHardDelete store r fail).1 = store.filter (fun s => s.id != r.id)) ∧
    (∀ (users : List UserRow) (profiles : ProfileStore) (username : String)
        (f1 f2 : Option PyExc),
      (createUser users profiles username f1 f2).1 =
        users ++ [⟨freshId (users.map (fun r => r.id)), username⟩]) := by
  refine ⟨?_, ?_, ?_, ?_, ?_, ?_, ?_, ?_, ?_⟩
  · intro store p fail
    unfold productPreSaveHandler
    cases productPreSaveBody store p fail <;> exact ⟨_, rfl⟩
  · intro created pid pname outcome outerFail
    unfold scheduleProductNotification
    rcases scheduleProductNotificationBody created pid pname outcome outerFail with ⟨calls, res⟩
    cases res <;> exact ⟨_, rfl⟩
  · intro raw fail
    unfold updateSearchIndexHandler
    cases updateSearchIndexBody raw fail <;> exact ⟨_, rfl⟩
  · intro pid pname fail
    unfold productPostDeleteHandler
    cases productPostDeleteBody pid pname fail <;> exact ⟨_, rfl⟩
  · intro profiles u created fail
    unfold createUserProfileHandler
    cases createUserProfileBody profiles u created fail <;> exact ⟨_, rfl⟩
  · intro profiles u fail
    unfold saveUserProfileHandler
    cases saveUserProfileBody profiles u fail <;> exact ⟨_, rfl⟩
  · intro store p now uf o
    cases hfc : fullClean p with
    | error e =>
        rw [pipeline_of_error hfc]
        unfold productSave
        rw [hfc]
        exact ⟨rfl, rfl⟩
    | ok u =>
        cases u
        rw [pipeline_of_ok hfc, productSave_of_ok hfc]
        exact ⟨rfl, (productWrite_error_none store (stripName p) now uf).symm⟩
  · intro store r fail
    unfold productHardDelete
    cases productPostDeleteHandler r.id r.name fail <;> rfl
  · intro users profiles username f1 f2
    simp only [createUser]
    rcases h1 : createUserProfileHandler profiles
        ⟨freshId (users.map (fun r => r.id)), username⟩ true f1 with e | ⟨profiles1, logs1⟩
    · simp [h1]
    · rcases h2 : saveUserProfileHandler profiles1
          ⟨freshId (users.map (fun r => r.id)), username⟩ f2 with e | ⟨profiles2, logs2⟩ <;>
        simp [h1, h2]

end DjangoBase
